import Mathlib

/-!
Verification of the Adaptive Target-Size Transcoding Controller of the
clipcat repository (src/src/App.tsx), as a shallow embedding in Lean.

JavaScript numbers are modelled as exact rationals (`ℚ`); `Math.floor`,
`Math.ceil` and `Math.round` become `Int.floor`, `Int.ceil` and `round`.
The React component's mutable refs and state are collected into an explicit
controller-state record, and the asynchronous body of `handleConvert` is
modelled as a small-step program whose suspension points are exactly the
`await`s of the source (the analysis calls, which contain no intervening
job-id checkpoint, are collapsed into one suspension).  Object URLs are
modelled as naturals handed out by a counter, together with explicit lists
of live and revoked URLs.
-/

namespace Clipcat

/-! ## The time-string parser (`parseTimeToSeconds`) -/

/-- Whitespace trimming of a character list, as `String.prototype.trim` /
`String.trim` do on both ends. -/
def jsTrim (l : List Char) : List Char :=
  ((l.dropWhile Char.isWhitespace).reverse.dropWhile Char.isWhitespace).reverse

/-- Splitting on a single separator character, as
`String.prototype.split(':')` does: `splitOnChar c l` always returns at
least one (possibly empty) component. -/
def splitOnChar (sep : Char) : List Char → List (List Char)
  | [] => [[]]
  | c :: rest =>
    let r := splitOnChar sep rest
    if c = sep then [] :: r
    else
      match r with
      | [] => [[c]]
      | h :: t => (c :: h) :: t

/-- Value of a list of decimal digit characters. -/
def decDigitsVal (l : List Char) : ℕ :=
  l.foldl (fun acc c => 10 * acc + (c.toNat - 48)) 0

/-- Unsigned decimal literal: digits, optionally with a decimal point and a
fractional digit run (at least one digit in total). -/
def parseUnsignedDecimal (l : List Char) : Option ℚ :=
  let p := l.span Char.isDigit
  match p.2 with
  | [] => if p.1.isEmpty then none else some (decDigitsVal p.1)
  | c :: fracPart =>
    if c = '.' ∧ fracPart.all Char.isDigit ∧ ¬(p.1.isEmpty ∧ fracPart.isEmpty) then
      some ((decDigitsVal p.1 : ℚ) + (decDigitsVal fracPart : ℚ) / (10 : ℚ) ^ fracPart.length)
    else none

/-- Optionally signed decimal literal. -/
def parseSignedDecimal : List Char → Option ℚ
  | '-' :: rest => (parseUnsignedDecimal rest).map (fun q => -q)
  | '+' :: rest => parseUnsignedDecimal rest
  | l => parseUnsignedDecimal l

/-- Models `Number(part)` for `part` a component of `split(':')` (so
`none` input is JavaScript's `undefined`), followed by the source's
`Number.isFinite` test: the result is `some q` exactly when `Number(part)`
is a finite number `q`, and `none` when it is `NaN` or infinite
(`Number(undefined)` is `NaN`; `Number('')` and `Number('  ')` are `0`;
ECMAScript's string numeric literals are modelled restricted to
optionally-signed decimal literals — the hexadecimal/binary/octal and
`Infinity` forms, which the repository's `MM:SS` inputs never take or
which `Number.isFinite` rejects anyway, are mapped to `none`). -/
def jsFiniteNumber : Option (List Char) → Option ℚ
  | none => none
  | some part =>
    let t := jsTrim part
    if t.isEmpty then some 0 else parseSignedDecimal t

/-- JavaScript's `x || 0` on a finite number: the identity except that it
normalises a zero (including `-0`) to `0`. -/
def jsOrZero (q : ℚ) : ℚ := if q = 0 then 0 else q

/-- `parseTimeToSeconds` from src/src/App.tsx: trim; empty string is no
value; split on `':'`; convert the first two components with `Number`; if
either is not finite, no value; otherwise `(minutes || 0) * 60 +
(seconds || 0)`. -/
def parseTimeToSeconds (time : String) : Option ℚ :=
  let trimmed := jsTrim time.toList
  if trimmed.isEmpty then none
  else
    let parts := splitOnChar ':' trimmed
    match jsFiniteNumber parts[0]?, jsFiniteNumber parts[1]? with
    | some minutes, some seconds => some (jsOrZero minutes * 60 + jsOrZero seconds)
    | _, _ => none

/-! ## Constants of `handleConvert` -/

def AUTO_MAX_ATTEMPTS : ℕ := 5

def AUTO_TARGET_BYTES : ℕ := 9800000

def AUDIO_BITRATE_BPS : ℕ := 96000

def BPP_THRESHOLD : ℚ := 0.02

def MIN_VIDEO_BITRATE_BPS : ℤ := 150000

/-! ## Input validation (start of `handleConvert`) -/

/-- Outcome of the trim-window validation at the start of `handleConvert`. -/
inductive ConvertValidation where
  | error (msg : String)
  | ok (startSeconds endSeconds : ℚ)
deriving DecidableEq

/-- The validation prefix of `handleConvert`: start defaults to `0` when
absent; missing end or `end ≤ start` is an error; otherwise the trim
window. -/
def validateTrim (startTime endTime : String) : ConvertValidation :=
  let startSeconds := (parseTimeToSeconds startTime).getD 0
  match parseTimeToSeconds endTime with
  | none => .error "Please enter an end time"
  | some endSeconds =>
    if endSeconds ≤ startSeconds then .error "End time must be after start time"
    else .ok startSeconds endSeconds

/-! ## Parameter derivation -/

/-- `Math.max(150_000, Math.round(AUTO_TARGET_BYTES * 0.015))`. -/
def overheadBytes : ℤ := max 150000 (round ((AUTO_TARGET_BYTES : ℚ) * 0.015))

/-- `hasAudio ? Math.ceil((AUDIO_BITRATE_BPS * durationSeconds) / 8) : 0`. -/
def audioBytesBudget (hasAudio : Bool) (durationSeconds : ℚ) : ℤ :=
  if hasAudio then ⌈((AUDIO_BITRATE_BPS : ℚ) * durationSeconds) / 8⌉ else 0

/-- `AUTO_TARGET_BYTES - overheadBytes - audioBytesBudget`. -/
def videoBytesBudget (hasAudio : Bool) (durationSeconds : ℚ) : ℤ :=
  (AUTO_TARGET_BYTES : ℤ) - overheadBytes - audioBytesBudget hasAudio durationSeconds

/-- `Math.floor((videoBytesBudget * 8) / durationSeconds)`. -/
def initialVideoBitrateBps (hasAudio : Bool) (durationSeconds : ℚ) : ℤ :=
  ⌊((videoBytesBudget hasAudio durationSeconds : ℚ) * 8) / durationSeconds⌋

/-- The downscale decision of `handleConvert`, returning
`(downscaleWidth, downscaleHeight)`.  `bitsPerPixel` is
`videoBitrateBps / pixelsPerSecond` when `pixelsPerSecond > 0` and
`Infinity` otherwise; `Infinity < BPP_THRESHOLD` is false, so the
threshold test is `0 < pixelsPerSecond ∧ bitrate / pixelsPerSecond <
BPP_THRESHOLD`. -/
def downscalePlan (displayWidth displayHeight : ℕ) (estimatedFps : ℚ)
    (videoBitrateBps : ℤ) : Option ℕ × Option ℕ :=
  let pixelsPerSecond : ℚ := (displayWidth : ℚ) * (displayHeight : ℚ) * estimatedFps
  let isLandscape : Bool := decide (displayHeight ≤ displayWidth)
  let isOver1080p : Bool :=
    if isLandscape then decide (1080 < displayHeight) else decide (1080 < displayWidth)
  let bppBelowThreshold : Bool :=
    decide (0 < pixelsPerSecond) && decide ((videoBitrateBps : ℚ) / pixelsPerSecond < BPP_THRESHOLD)
  let shouldDownscale := isOver1080p && bppBelowThreshold
  if shouldDownscale then
    if isLandscape then (none, some 1080) else (some 1080, none)
  else (none, none)

/-! ## The convergence-loop bitrate correction -/

/-- The bitrate correction applied when an encode attempt comes out over
budget: `nextBitrate = Math.floor(videoBitrateBps * (AUTO_TARGET_BYTES /
sizeBytes) * 0.92)`; fall back to `Math.floor(videoBitrateBps * 0.85)`
when that does not decrease; clamp to `MIN_VIDEO_BITRATE_BPS`. -/
def correctBitrate (videoBitrateBps : ℤ) (sizeBytes : ℕ) : ℤ :=
  let ratio : ℚ := (AUTO_TARGET_BYTES : ℚ) / (sizeBytes : ℚ)
  let nextBitrate : ℤ := ⌊(videoBitrateBps : ℚ) * ratio * 0.92⌋
  let reducedBitrate : ℤ :=
    if nextBitrate < videoBitrateBps then nextBitrate
    else ⌊(videoBitrateBps : ℚ) * 0.85⌋
  max reducedBitrate MIN_VIDEO_BITRATE_BPS

/-! ## Controller state -/

inductive OutStatus where
  | idle
  | encoding
  | done
  | error
deriving DecidableEq

/-- The `OutputState` record of the component. -/
structure OutputState where
  status : OutStatus
  url : Option ℕ
  sizeBytes : Option ℕ
  errorMsg : Option String
deriving DecidableEq

def INITIAL_OUTPUT_STATE : OutputState := ⟨.idle, none, none, none⟩

/-- The component's mutable state: the `jobIdRef` and `outputUrlRef` refs,
the React state cells, plus an explicit model of the object-URL
allocator (`nextUrl` hands out fresh handles; `alive` and `revoked`
track `URL.createObjectURL` / `URL.revokeObjectURL`). -/
structure CtrlState where
  jobIdRef : ℕ
  file : Option ℕ
  isConverting : Bool
  autoPass : Option ℕ
  output : OutputState
  outputUrlRef : Option ℕ
  nextUrl : ℕ
  alive : List ℕ
  revoked : List ℕ
deriving DecidableEq

def initialCtrlState : CtrlState :=
  ⟨0, none, false, none, INITIAL_OUTPUT_STATE, none, 0, [], []⟩

/-- `URL.revokeObjectURL`. -/
def revokeObjectURL (u : ℕ) (c : CtrlState) : CtrlState :=
  { c with alive := c.alive.erase u, revoked := u :: c.revoked }

/-- `resetOutput`: revoke the held URL if any, clear the ref, reset the
output state, clear the pass indicator. -/
def resetOutput (c : CtrlState) : CtrlState :=
  let c1 :=
    match c.outputUrlRef with
    | some u => revokeObjectURL u c
    | none => c
  { c1 with outputUrlRef := none, output := INITIAL_OUTPUT_STATE, autoPass := none }

/-- `handleFileChange`: increment the job-id counter, store the selected
file, stop converting, reset the output. -/
def handleFileChange (selectedFile : Option ℕ) (c : CtrlState) : CtrlState :=
  resetOutput { c with jobIdRef := c.jobIdRef + 1, file := selectedFile, isConverting := false }

/-! ## Jobs and job steps -/

/-- The per-attempt encode parameters (the trim window and bitrate are
carried separately on the job). -/
structure EncodePlan where
  downscaleWidth : Option ℕ
  downscaleHeight : Option ℕ
  hasAudio : Bool
deriving DecidableEq

/-- A suspended `handleConvert` invocation: its captured job id and the
await it is parked on. -/
inductive Job where
  | analyzing (jobId : ℕ) (startSeconds endSeconds : ℚ)
  | encoding (jobId : ℕ) (startSeconds endSeconds : ℚ) (plan : EncodePlan)
      (attempt : ℕ) (videoBitrateBps : ℤ)
deriving DecidableEq

def Job.jobId : Job → ℕ
  | .analyzing i _ _ => i
  | .encoding i _ _ _ _ _ => i

/-- What the media analysis of the source file reports: display
dimensions, the sampled packet rate (clamped later), audio presence.
`none` at the call site models the analyzer finding no video track. -/
structure RawAnalysis where
  displayWidth : ℕ
  displayHeight : ℕ
  averagePacketRate : ℚ
  hasAudio : Bool
deriving DecidableEq

/-- The value a suspended job is resumed with. -/
inductive JobEvent where
  | analysisDone (result : Option RawAnalysis)
  | encodeDone (result : Except String ℕ)

/-- The `catch` and `finally` blocks of `handleConvert` for a fatal
message: commit the error and stop converting only when the captured job
id still matches the counter. -/
def jobCatch (jobId : ℕ) (msg : String) (c : CtrlState) : CtrlState :=
  if jobId = c.jobIdRef then
    { c with output := ⟨.error, none, none, some msg⟩, isConverting := false, autoPass := none }
  else c

/-- The synchronous prologue of `handleConvert`: the guard on
`file`/`isConverting`, validation (validation errors update only the
status and message of the previous output state), capture of the job id,
`setIsConverting(true)`, `resetOutput()`, and the switch to the
`encoding` status; the job then suspends at the analysis await. -/
def handleConvertStart (startTime endTime : String) (c : CtrlState) : CtrlState × Option Job :=
  if c.file = none ∨ c.isConverting then (c, none)
  else
    match validateTrim startTime endTime with
    | .error msg =>
      ({ c with output := { c.output with status := .error, errorMsg := some msg } }, none)
    | .ok startSeconds endSeconds =>
      let jobId := c.jobIdRef
      let c1 := resetOutput { c with isConverting := true }
      let c2 := { c1 with output := ⟨.encoding, none, none, none⟩ }
      (c2, some (.analyzing jobId startSeconds endSeconds))

/-- The segment of `handleConvert` that runs when the analysis await
resolves: clamp the fps estimate, derive the byte budgets (failing when
the video budget is exhausted), compute the initial bitrate and the
downscale decision, then run the loop head of attempt 1 (job-id
checkpoint) and suspend at the first encode await. -/
def stepAnalysis (jobId : ℕ) (startSeconds endSeconds : ℚ) (res : Option RawAnalysis)
    (c : CtrlState) : CtrlState × Option Job :=
  match res with
  | none => (jobCatch jobId "No video track found in the selected file" c, none)
  | some a =>
    let durationSeconds := endSeconds - startSeconds
    let estimatedFps : ℚ := min (max a.averagePacketRate 15) 120
    if videoBytesBudget a.hasAudio durationSeconds ≤ 0 then
      (jobCatch jobId "Clip is too short to safely fit under 10MB" c, none)
    else
      let b0 := initialVideoBitrateBps a.hasAudio durationSeconds
      let ds := downscalePlan a.displayWidth a.displayHeight estimatedFps b0
      if jobId = c.jobIdRef then
        (c, some (.encoding jobId startSeconds endSeconds ⟨ds.1, ds.2, a.hasAudio⟩ 1 b0))
      else (c, none)

/-- The segment of `handleConvert` that runs when an encode await
resolves: an engine failure goes to the catch block; a result within the
budget creates an object URL and either commits it (job still current)
or revokes it (superseded); an over-budget result corrects the bitrate
and either runs the next loop head (job-id checkpoint, pass indicator)
or, after the last attempt, throws the convergence error into the catch
block. -/
def stepEncode (jobId : ℕ) (startSeconds endSeconds : ℚ) (plan : EncodePlan)
    (attempt : ℕ) (videoBitrateBps : ℤ) (res : Except String ℕ)
    (c : CtrlState) : CtrlState × Option Job :=
  match res with
  | .error msg => (jobCatch jobId msg c, none)
  | .ok sizeBytes =>
    if sizeBytes ≤ AUTO_TARGET_BYTES then
      let url := c.nextUrl
      let c1 := { c with nextUrl := c.nextUrl + 1, alive := url :: c.alive }
      if jobId = c1.jobIdRef then
        ({ c1 with outputUrlRef := some url,
                   output := ⟨.done, some url, some sizeBytes, none⟩,
                   isConverting := false, autoPass := none }, none)
      else (revokeObjectURL url c1, none)
    else
      let b2 := correctBitrate videoBitrateBps sizeBytes
      if attempt + 1 ≤ AUTO_MAX_ATTEMPTS then
        if jobId = c.jobIdRef then
          ({ c with autoPass := some (attempt + 1) },
            some (.encoding jobId startSeconds endSeconds plan (attempt + 1) b2))
        else (c, none)
      else
        (jobCatch jobId "Auto mode could not hit the target size. Try trimming more." c, none)

/-- One resumption of a suspended job.  A mismatched event kind cannot
arise in a run of the source (a job parked on an analysis await is only
ever resumed by the analyzer) and leaves everything unchanged. -/
def jobStep (j : Job) (ev : JobEvent) (c : CtrlState) : CtrlState × Option Job :=
  match j, ev with
  | .analyzing jobId s e, .analysisDone res => stepAnalysis jobId s e res c
  | .encoding jobId s e plan attempt b, .encodeDone res => stepEncode jobId s e plan attempt b res c
  | j, _ => (c, some j)

/-! ## Drivers used by the claims -/

/-- The attempt number of a pending encode await, if any. -/
def pendingAttempt : Option Job → Option ℕ
  | some (.encoding _ _ _ _ attempt _) => some attempt
  | _ => none

/-- Feed up to `fuel` encode results to a suspended job, the result of
the attempt-`a` encode being `sizes a`, and count the encode attempts
consumed.  Feeding stops as soon as the job has terminated. -/
def runLoopCount (sizes : ℕ → ℕ) : ℕ → CtrlState × Option Job → (CtrlState × Option Job) × ℕ
  | 0, p => (p, 0)
  | fuel + 1, (c, some (.encoding jobId s e plan attempt b)) =>
    let r := runLoopCount sizes fuel
      (jobStep (.encoding jobId s e plan attempt b) (.encodeDone (.ok (sizes attempt))) c)
    (r.1, r.2 + 1)
  | _ + 1, p => (p, 0)

/-- A fresh controller on which a file has just been selected. -/
def convertReady : CtrlState := handleFileChange (some 0) initialCtrlState

/-- Start a conversion of the 20-second window 0:00–0:20 on a fresh
controller and resume it with the given analysis result, leaving the job
suspended at its first encode await. -/
def startRun (a : RawAnalysis) : CtrlState × Option Job :=
  match handleConvertStart "0:00" "0:20" convertReady with
  | (c, some j) => jobStep j (.analysisDone (some a)) c
  | (c, none) => (c, none)

/-- One complete, uninterfered, successful job: select a file, convert
the window 0:00–0:20 of a 1080p silent source, and let the first encode
attempt come back under budget (5,000,000 bytes). -/
def runSuccessfulJob (c : CtrlState) : CtrlState :=
  let c1 := handleFileChange (some 0) c
  match handleConvertStart "0:00" "0:20" c1 with
  | (c2, none) => c2
  | (c2, some j) =>
    match jobStep j (.analysisDone (some ⟨1920, 1080, 30, false⟩)) c2 with
    | (c3, none) => c3
    | (c3, some j2) => (jobStep j2 (.encodeDone (.ok 5000000)) c3).1

/-- The controller after `n` successful jobs in sequence. -/
def stateAfterJobs : ℕ → CtrlState
  | 0 => initialCtrlState
  | n + 1 => runSuccessfulJob (stateAfterJobs n)

/-- Closed form of the controller state after `n + 1` successful jobs. -/
def seqState (n : ℕ) : CtrlState :=
  { jobIdRef := n + 1, file := some 0, isConverting := false, autoPass := none,
    output := ⟨.done, some n, some 5000000, none⟩, outputUrlRef := some n,
    nextUrl := n + 1, alive := [n], revoked := (List.range n).reverse }

/-- The controller state right after `startRun`'s prologue: job 1 is
converting and the output state shows `encoding`. -/
def encodingState : CtrlState :=
  ⟨1, some 0, true, none, ⟨.encoding, none, none, none⟩, none, 0, [], []⟩

/-- The encode plan derived by `startRun` for an analysis result `a` of a
20-second window. -/
def planFor (a : RawAnalysis) : EncodePlan :=
  ⟨(downscalePlan a.displayWidth a.displayHeight (min (max a.averagePacketRate 15) 120)
      (initialVideoBitrateBps a.hasAudio 20)).1,
    (downscalePlan a.displayWidth a.displayHeight (min (max a.averagePacketRate 15) 120)
      (initialVideoBitrateBps a.hasAudio 20)).2,
    a.hasAudio⟩

/-- The state committed by the catch/finally blocks when the convergence
loop exhausts its five attempts. -/
def convergenceFailed (c : CtrlState) : CtrlState :=
  { c with
    output := ⟨.error, none, none,
      some "Auto mode could not hit the target size. Try trimming more."⟩,
    isConverting := false, autoPass := none }

/-! ## Evaluation helpers for the parser -/

theorem parseTimeToSeconds_empty {t : String} (h : jsTrim t.data = []) :
    parseTimeToSeconds t = none := by
  simp [parseTimeToSeconds, h]

theorem parseTimeToSeconds_of_parts {t : String} {m s : ℚ}
    (h0 : jsTrim t.data ≠ [])
    (h1 : jsFiniteNumber (splitOnChar ':' (jsTrim t.data))[0]? = some m)
    (h2 : jsFiniteNumber (splitOnChar ':' (jsTrim t.data))[1]? = some s) :
    parseTimeToSeconds t = some (jsOrZero m * 60 + jsOrZero s) := by
  simp [parseTimeToSeconds, h0, h1, h2]

theorem parseTimeToSeconds_none_of_parts {t : String}
    (h0 : jsTrim t.data ≠ [])
    (h : jsFiniteNumber (splitOnChar ':' (jsTrim t.data))[0]? = none ∨
      jsFiniteNumber (splitOnChar ':' (jsTrim t.data))[1]? = none) :
    parseTimeToSeconds t = none := by
  rcases h with h | h
  · simp [parseTimeToSeconds, h0, h]
  · rcases e : jsFiniteNumber (splitOnChar ':' (jsTrim t.data))[0]? with _ | m
    · simp [parseTimeToSeconds, h0, e]
    · simp [parseTimeToSeconds, h0, e, h]

theorem parse_2_30 : parseTimeToSeconds "2:30" = some 150 := by
  rw [parseTimeToSeconds_of_parts (m := 2) (s := 30) (by decide) (by decide) (by decide)]
  norm_num [jsOrZero]

theorem parse_0_05 : parseTimeToSeconds "0:05" = some 5 := by
  rw [parseTimeToSeconds_of_parts (m := 0) (s := 5) (by decide) (by decide) (by decide)]
  norm_num [jsOrZero]

theorem parse_colon : parseTimeToSeconds ":" = some 0 := by
  rw [parseTimeToSeconds_of_parts (m := 0) (s := 0) (by decide) (by decide) (by decide)]
  norm_num [jsOrZero]

theorem parse_2_colon : parseTimeToSeconds "2:" = some 120 := by
  rw [parseTimeToSeconds_of_parts (m := 2) (s := 0) (by decide) (by decide) (by decide)]
  norm_num [jsOrZero]

theorem parse_colon_30 : parseTimeToSeconds ":30" = some 30 := by
  rw [parseTimeToSeconds_of_parts (m := 0) (s := 30) (by decide) (by decide) (by decide)]
  norm_num [jsOrZero]

theorem parse_0_00 : parseTimeToSeconds "0:00" = some 0 := by
  rw [parseTimeToSeconds_of_parts (m := 0) (s := 0) (by decide) (by decide) (by decide)]
  norm_num [jsOrZero]

theorem parse_0_20 : parseTimeToSeconds "0:20" = some 20 := by
  rw [parseTimeToSeconds_of_parts (m := 0) (s := 20) (by decide) (by decide) (by decide)]
  norm_num [jsOrZero]

theorem parse_neg_start : parseTimeToSeconds "-1:0" = some (-60) := by
  rw [parseTimeToSeconds_of_parts (m := -1) (s := 0) (by decide) (by decide) (by decide)]
  norm_num [jsOrZero]

theorem parse_2_x : parseTimeToSeconds "2:x" = none :=
  parseTimeToSeconds_none_of_parts (by decide) (Or.inr (by decide))

theorem parse_bare_2 : parseTimeToSeconds "2" = none :=
  parseTimeToSeconds_none_of_parts (by decide) (Or.inr (by decide))

/-! ## Claim C9 -/

/-- Claim C9, counterexample: the claim says the string consisting of a
lone colon yields no value, but `parseTimeToSeconds ":"` evaluates to
`some 0` — both components are empty, `Number('')` is `0`, and
`0 * 60 + 0 = 0` is returned. -/
theorem parse_colon_yields_zero :
    parseTimeToSeconds ":" = some 0 ∧ parseTimeToSeconds ":" ≠ none := by
  refine ⟨parse_colon, ?_⟩
  rw [parse_colon]
  simp

/-- Claim C9 (amended): the time parser satisfies the listed cases with
the lone-colon case corrected: an empty or whitespace-only string yields
no value; `"2:30"` yields 150; `"0:05"` yields 5; `":"` yields the value
0 (an empty component is treated as 0, so nothing fails); `"2:"` yields
120 (the empty seconds component is treated as 0; a component that is
non-empty and non-numeric instead makes the parse yield no value). -/
theorem parse_time_listed_cases :
    (∀ t : String, jsTrim t.data = [] → parseTimeToSeconds t = none) ∧
    parseTimeToSeconds "2:30" = some 150 ∧
    parseTimeToSeconds "0:05" = some 5 ∧
    parseTimeToSeconds ":" = some 0 ∧
    parseTimeToSeconds "2:" = some 120 :=
  ⟨fun _ h => parseTimeToSeconds_empty h, parse_2_30, parse_0_05, parse_colon, parse_2_colon⟩

/-- Claim C9, witness: the whitespace-only case of the amended theorem at
a concrete three-space string. -/
theorem parse_time_listed_cases_check :
    jsTrim "   ".data = [] ∧ parseTimeToSeconds "   " = none :=
  ⟨by decide, parse_time_listed_cases.1 "   " (by decide)⟩

/-! ## Claim C10 -/

/-- Claim C10, counterexample: the claim says `"2:x"` parses to 120
seconds (a non-numeric component defaulting to 0), but the source
returns `null` for it: `Number('x')` is `NaN`, `Number.isFinite` fails,
and the whole parse yields no value. -/
theorem parse_2_x_yields_none :
    parseTimeToSeconds "2:x" = none ∧ parseTimeToSeconds "2:x" ≠ some 120 := by
  refine ⟨parse_2_x, ?_⟩
  rw [parse_2_x]
  simp

/-- Claim C10 (amended): only an *empty* (or, for the seconds slot,
missing-after-split-with-a-colon-present) component defaults to 0; a
non-numeric component makes the whole parse yield no value, as does a
missing colon.  `"2:"` yields 120 and `":30"` yields 30, but `"2:x"` and
`"2"` yield no value; in general, for a non-blank string the parse
yields no value exactly when `Number` applied to one of the first two
colon-separated components is not finite. -/
theorem parse_time_component_rules :
    parseTimeToSeconds "2:" = some 120 ∧
    parseTimeToSeconds ":30" = some 30 ∧
    parseTimeToSeconds "2:x" = none ∧
    parseTimeToSeconds "2" = none ∧
    ∀ t : String, jsTrim t.data ≠ [] →
      (parseTimeToSeconds t = none ↔
        jsFiniteNumber (splitOnChar ':' (jsTrim t.data))[0]? = none ∨
        jsFiniteNumber (splitOnChar ':' (jsTrim t.data))[1]? = none) := by
  refine ⟨parse_2_colon, parse_colon_30, parse_2_x, parse_bare_2, ?_⟩
  intro t h0
  constructor
  · intro hn
    rcases e1 : jsFiniteNumber (splitOnChar ':' (jsTrim t.data))[0]? with _ | m
    · exact Or.inl rfl
    · rcases e2 : jsFiniteNumber (splitOnChar ':' (jsTrim t.data))[1]? with _ | s
      · exact Or.inr rfl
      · rw [parseTimeToSeconds_of_parts h0 e1 e2] at hn
        exact absurd hn (by simp)
  · exact parseTimeToSeconds_none_of_parts h0

/-- Claim C10, witness: the general rule of the amended theorem at the
concrete string `"2:x"`. -/
theorem parse_time_component_rules_check :
    jsTrim "2:x".data ≠ [] ∧
    (parseTimeToSeconds "2:x" = none ↔
      jsFiniteNumber (splitOnChar ':' (jsTrim "2:x".data))[0]? = none ∨
      jsFiniteNumber (splitOnChar ':' (jsTrim "2:x".data))[1]? = none) :=
  ⟨by decide, parse_time_component_rules.2.2.2.2 "2:x" (by decide)⟩

/-! ## Claim C8 -/

/-- Claim C8, counterexample: the claim says every accepted trim window
has `startSeconds ≥ 0`, but the validation accepts the start string
`"-1:0"`, which parses to −60 seconds: `validateTrim "-1:0" "0:05"`
succeeds with `startSeconds = -60 < 0`. -/
theorem validate_trim_negative_start :
    validateTrim "-1:0" "0:05" = ConvertValidation.ok (-60) 5 ∧ ¬ ((0:ℚ) ≤ -60) := by
  constructor
  · norm_num [validateTrim, parse_neg_start, parse_0_05]
  · norm_num

/-- Claim C8 (amended): conversion fails with a validation error — and
then no job is started, so no analyzer or engine work is performed —
exactly when the end string parses to no value or the parsed end is at
most the parsed start (an absent start being treated as 0); otherwise
the produced trim window satisfies `endSeconds > startSeconds` (but not
necessarily `startSeconds ≥ 0`: a negative start string is accepted). -/
theorem validate_trim_spec : ∀ startTime endTime : String,
    ((∃ msg, validateTrim startTime endTime = .error msg) ↔
      (parseTimeToSeconds endTime = none ∨
        ∃ e, parseTimeToSeconds endTime = some e ∧
          e ≤ (parseTimeToSeconds startTime).getD 0)) ∧
    (∀ s e, validateTrim startTime endTime = .ok s e →
      s = (parseTimeToSeconds startTime).getD 0 ∧
      parseTimeToSeconds endTime = some e ∧ s < e) ∧
    (∀ (c : CtrlState) (msg : String), validateTrim startTime endTime = .error msg →
      (handleConvertStart startTime endTime c).2 = none) := by
  intro st en
  refine ⟨?_, ?_, ?_⟩
  · rcases he : parseTimeToSeconds en with _ | e
    · simp [validateTrim, he]
    · by_cases hle : e ≤ (parseTimeToSeconds st).getD 0
      · simp [validateTrim, he, hle]
      · simp [validateTrim, he, hle]
  · intro s e hok
    rcases he : parseTimeToSeconds en with _ | e2
    · simp [validateTrim, he] at hok
    · by_cases hle : e2 ≤ (parseTimeToSeconds st).getD 0
      · simp [validateTrim, he, hle] at hok
      · simp [validateTrim, he, hle] at hok
        obtain ⟨hs, he2⟩ := hok
        subst hs
        subst he2
        exact ⟨rfl, rfl, lt_of_not_le hle⟩
  · intro c msg herr
    rw [handleConvertStart.eq_def]
    by_cases hg : c.file = none ∨ c.isConverting
    · rw [if_pos hg]
    · rw [if_neg hg, herr]

/-- Claim C8, witness: the amended theorem applied at a concrete pair of
inputs with a missing end time: the validation fails and no job is
started on a fresh controller. -/
theorem validate_trim_spec_check :
    validateTrim "0:00" "" = ConvertValidation.error "Please enter an end time" ∧
    (handleConvertStart "0:00" "" initialCtrlState).2 = none := by
  have hempty : parseTimeToSeconds "" = none := parseTimeToSeconds_empty (by decide)
  have herr : validateTrim "0:00" "" = ConvertValidation.error "Please enter an end time" := by
    simp [validateTrim, hempty]
  exact ⟨herr, (validate_trim_spec "0:00" "").2.2 initialCtrlState "Please enter an end time" herr⟩

/-! ## Numeric evaluations of the budget derivation -/

theorem overheadBytes_eq : overheadBytes = 150000 := by
  rw [overheadBytes,
    show ((AUTO_TARGET_BYTES : ℚ) * 0.015) = ((147000 : ℤ) : ℚ) by norm_num [AUTO_TARGET_BYTES],
    round_intCast]
  norm_num

theorem audioBytesBudget_true20 : audioBytesBudget true 20 = 240000 := by
  rw [audioBytesBudget, if_pos rfl,
    show ((AUDIO_BITRATE_BPS : ℚ) * 20) / 8 = ((240000 : ℤ) : ℚ) by norm_num [AUDIO_BITRATE_BPS],
    Int.ceil_intCast]

theorem audioBytesBudget_false (d : ℚ) : audioBytesBudget false d = 0 := rfl

theorem videoBytesBudget_true20 : videoBytesBudget true 20 = 9410000 := by
  rw [videoBytesBudget, overheadBytes_eq, audioBytesBudget_true20]
  norm_num [AUTO_TARGET_BYTES]

theorem videoBytesBudget_false20 : videoBytesBudget false 20 = 9650000 := by
  rw [videoBytesBudget, overheadBytes_eq, audioBytesBudget_false]
  norm_num [AUTO_TARGET_BYTES]

theorem initialVideoBitrateBps_true20 : initialVideoBitrateBps true 20 = 3764000 := by
  rw [initialVideoBitrateBps, videoBytesBudget_true20,
    show (((9410000 : ℤ) : ℚ) * 8) / 20 = ((3764000 : ℤ) : ℚ) by norm_num,
    Int.floor_intCast]

theorem initialVideoBitrateBps_false20 : initialVideoBitrateBps false 20 = 3860000 := by
  rw [initialVideoBitrateBps, videoBytesBudget_false20,
    show (((9650000 : ℤ) : ℚ) * 8) / 20 = ((3860000 : ℤ) : ℚ) by norm_num,
    Int.floor_intCast]

/-! ## Claim C3 -/

/-- Claim C3: for a 20-second clip with audio the derivation computes
`overheadBytes = max(150000, round(9800000 * 0.015)) = 150000`,
`audioBudgetBytes = ceil(96000 * 20 / 8) = 240000`,
`videoBudgetBytes = 9800000 - 150000 - 240000 = 9410000` and
`videoBitrateBps = floor(9410000 * 8 / 20) = 3764000`; and in general the
initial bitrate is
`floor((targetBytes - overheadBytes - audioBudgetBytes) * 8 / duration)`. -/
theorem budget_derivation :
    overheadBytes = 150000 ∧
    audioBytesBudget true 20 = 240000 ∧
    videoBytesBudget true 20 = 9410000 ∧
    initialVideoBitrateBps true 20 = 3764000 ∧
    ∀ (hasAudio : Bool) (d : ℚ),
      initialVideoBitrateBps hasAudio d =
        ⌊((((AUTO_TARGET_BYTES : ℤ) - overheadBytes - audioBytesBudget hasAudio d : ℤ) : ℚ) * 8) / d⌋ :=
  ⟨overheadBytes_eq, audioBytesBudget_true20, videoBytesBudget_true20,
    initialVideoBitrateBps_true20, fun _ _ => rfl⟩

/-! ## Claim C2 -/

/-- Claim C2: one bitrate-correction step never increases the bitrate and
never takes it below the 150,000 bps floor: for every current bitrate
`b ≥ 150000` and every over-budget size `s > AUTO_TARGET_BYTES`, the
corrected bitrate satisfies `correctBitrate b s ≤ b` and
`150000 ≤ correctBitrate b s`; hence the per-attempt bitrate sequence of
a job is non-increasing and stays at or above the floor. -/
theorem bitrate_correction_bounds : ∀ (b : ℤ) (s : ℕ),
    MIN_VIDEO_BITRATE_BPS ≤ b → AUTO_TARGET_BYTES < s →
    correctBitrate b s ≤ b ∧ MIN_VIDEO_BITRATE_BPS ≤ correctBitrate b s := by
  intro b s hb hs
  have hb0 : (0:ℚ) < (b:ℚ) := by
    have h1 : (0:ℤ) < b := lt_of_lt_of_le (by norm_num [MIN_VIDEO_BITRATE_BPS]) hb
    exact_mod_cast h1
  have hs0 : (0:ℚ) < (s:ℚ) := by
    have h1 : 0 < s := lt_trans (by norm_num [AUTO_TARGET_BYTES]) hs
    exact_mod_cast h1
  have hlt : (AUTO_TARGET_BYTES:ℚ) / (s:ℚ) < 1 := by
    rw [div_lt_one hs0]
    exact_mod_cast hs
  have hnn : (0:ℚ) ≤ (AUTO_TARGET_BYTES:ℚ) / (s:ℚ) := div_nonneg (by positivity) (le_of_lt hs0)
  have hx : (b:ℚ) * ((AUTO_TARGET_BYTES:ℚ) / (s:ℚ)) * 0.92 < (b:ℚ) := by
    have h1 : ((AUTO_TARGET_BYTES:ℚ) / (s:ℚ)) * 0.92 < 1 := by nlinarith
    calc (b:ℚ) * ((AUTO_TARGET_BYTES:ℚ) / (s:ℚ)) * 0.92
        = (b:ℚ) * (((AUTO_TARGET_BYTES:ℚ) / (s:ℚ)) * 0.92) := by ring
      _ < (b:ℚ) * 1 := mul_lt_mul_of_pos_left h1 hb0
      _ = (b:ℚ) := mul_one _
  have hfl : ⌊(b:ℚ) * ((AUTO_TARGET_BYTES:ℚ) / (s:ℚ)) * 0.92⌋ < b := Int.floor_lt.mpr (by exact_mod_cast hx)
  simp only [correctBitrate]
  rw [if_pos hfl]
  exact ⟨max_le (le_of_lt hfl) hb, le_max_right _ _⟩

/-- Claim C2, witness: the correction step at the derived 20-second
bitrate and an over-budget result of 14,700,000 bytes. -/
theorem bitrate_correction_bounds_check :
    MIN_VIDEO_BITRATE_BPS ≤ (3764000 : ℤ) ∧ AUTO_TARGET_BYTES < 14700000 ∧
    (correctBitrate 3764000 14700000 ≤ 3764000 ∧
      MIN_VIDEO_BITRATE_BPS ≤ correctBitrate 3764000 14700000) :=
  ⟨by norm_num [MIN_VIDEO_BITRATE_BPS], by norm_num [AUTO_TARGET_BYTES],
    bitrate_correction_bounds 3764000 14700000 (by norm_num [MIN_VIDEO_BITRATE_BPS])
      (by norm_num [AUTO_TARGET_BYTES])⟩

/-! ## Claim C4 -/

/-- Claim C4: a landscape source with height above 1080 and bits-per-pixel
below the 0.02 threshold downscales to `targetHeight = 1080` with no
target width; a portrait source with width above 1080 and
bits-per-pixel below the threshold downscales to `targetWidth = 1080`
with no target height; and a source whose checked dimension (height if
landscape, width if portrait) is at most 1080 never gets either target
dimension, regardless of bitrate. -/
theorem downscale_rule : ∀ (w h : ℕ) (fps : ℚ) (b : ℤ),
    (h ≤ w → 1080 < h → 0 < (w:ℚ) * (h:ℚ) * fps →
      (b:ℚ) / ((w:ℚ) * (h:ℚ) * fps) < BPP_THRESHOLD →
      downscalePlan w h fps b = (none, some 1080)) ∧
    (w < h → 1080 < w → 0 < (w:ℚ) * (h:ℚ) * fps →
      (b:ℚ) / ((w:ℚ) * (h:ℚ) * fps) < BPP_THRESHOLD →
      downscalePlan w h fps b = (some 1080, none)) ∧
    ((if h ≤ w then h else w) ≤ 1080 → downscalePlan w h fps b = (none, none)) := by
  intro w h fps b
  refine ⟨?_, ?_, ?_⟩
  · intro hl h1080 hpps hbpp
    simp [downscalePlan, hl, h1080, hpps, hbpp]
  · intro hl h1080 hpps hbpp
    simp [downscalePlan, not_le.mpr hl, h1080, hpps, hbpp]
  · intro hle
    by_cases hl : h ≤ w
    · rw [if_pos hl] at hle
      simp [downscalePlan, hl, not_lt.mpr hle]
    · rw [if_neg hl] at hle
      simp [downscalePlan, hl, not_lt.mpr hle]

/-- Claim C4, witness: a 4K landscape source at 30 fps with the derived
3,764,000 bps bitrate downscales to height 1080, and a 1080p source
never downscales even at an enormous bitrate. -/
theorem downscale_rule_check :
    downscalePlan 3840 2160 30 3764000 = (none, some 1080) ∧
    downscalePlan 1920 1080 30 50000000 = (none, none) :=
  ⟨(downscale_rule 3840 2160 30 3764000).1 (by norm_num) (by norm_num) (by norm_num)
      (by norm_num [BPP_THRESHOLD]),
    (downscale_rule 1920 1080 30 50000000).2.2 (by norm_num)⟩

/-! ## Structure of the controller operations -/

theorem handleFileChange_eq (sf : Option ℕ) (c : CtrlState) :
    handleFileChange sf c =
      { jobIdRef := c.jobIdRef + 1, file := sf, isConverting := false, autoPass := none,
        output := INITIAL_OUTPUT_STATE, outputUrlRef := none, nextUrl := c.nextUrl,
        alive := match c.outputUrlRef with
          | some u => c.alive.erase u
          | none => c.alive,
        revoked := match c.outputUrlRef with
          | some u => u :: c.revoked
          | none => c.revoked } := by
  rcases ho : c.outputUrlRef with _ | u <;>
    simp [handleFileChange, resetOutput, revokeObjectURL, ho]

/-! ## Claim C5 -/

/-- Claim C5: a superseded job never mutates observable state: whenever a
suspended job whose captured id differs from the controller's current
job-id counter is resumed (at any of its checkpoints: the loop head
before an encode attempt, the success commit, the error commit of the
catch block, and the finally block), the output state, the output-URL
ref, the set of live object URLs, the converting flag, the pass
indicator, the counter and the file selection are all left unchanged —
in particular an object URL created for a late success result is revoked
rather than stored. -/
theorem stale_job_no_mutation : ∀ (j : Job) (ev : JobEvent) (c : CtrlState),
    Job.jobId j ≠ c.jobIdRef →
    (jobStep j ev c).1.output = c.output ∧
    (jobStep j ev c).1.outputUrlRef = c.outputUrlRef ∧
    (jobStep j ev c).1.alive = c.alive ∧
    (jobStep j ev c).1.isConverting = c.isConverting ∧
    (jobStep j ev c).1.autoPass = c.autoPass ∧
    (jobStep j ev c).1.jobIdRef = c.jobIdRef ∧
    (jobStep j ev c).1.file = c.file := by
  intro j ev c hne
  cases j with
  | analyzing jobId ts te =>
    simp only [Job.jobId] at hne
    cases ev with
    | analysisDone res =>
      cases res with
      | none => simp [jobStep, stepAnalysis, jobCatch, hne]
      | some a =>
        by_cases hb : videoBytesBudget a.hasAudio (te - ts) ≤ 0
        · simp [jobStep, stepAnalysis, jobCatch, hb, hne]
        · simp [jobStep, stepAnalysis, jobCatch, hb, hne]
    | encodeDone res => simp [jobStep]
  | encoding jobId ts te plan attempt b =>
    simp only [Job.jobId] at hne
    cases ev with
    | analysisDone res => simp [jobStep]
    | encodeDone res =>
      cases res with
      | error msg => simp [jobStep, stepEncode, jobCatch, hne]
      | ok sz =>
        by_cases hsz : sz ≤ AUTO_TARGET_BYTES
        · simp [jobStep, stepEncode, jobCatch, revokeObjectURL, hsz, hne]
        · by_cases hat : attempt + 1 ≤ AUTO_MAX_ATTEMPTS
          · simp [jobStep, stepEncode, jobCatch, hsz, hat, hne]
          · simp [jobStep, stepEncode, jobCatch, hsz, hat, hne]

/-- Claim C5, witness: a stale job (captured id 5 against counter 0)
resumed with an under-budget encode result creates and immediately
revokes its object URL, leaving every observable component unchanged. -/
theorem stale_job_no_mutation_check :
    Job.jobId (Job.encoding 5 0 20 ⟨none, none, false⟩ 1 3860000) ≠ initialCtrlState.jobIdRef ∧
    ((jobStep (Job.encoding 5 0 20 ⟨none, none, false⟩ 1 3860000)
        (.encodeDone (.ok 100)) initialCtrlState).1.output = initialCtrlState.output ∧
      (jobStep (Job.encoding 5 0 20 ⟨none, none, false⟩ 1 3860000)
        (.encodeDone (.ok 100)) initialCtrlState).1.outputUrlRef = initialCtrlState.outputUrlRef ∧
      (jobStep (Job.encoding 5 0 20 ⟨none, none, false⟩ 1 3860000)
        (.encodeDone (.ok 100)) initialCtrlState).1.alive = initialCtrlState.alive ∧
      (jobStep (Job.encoding 5 0 20 ⟨none, none, false⟩ 1 3860000)
        (.encodeDone (.ok 100)) initialCtrlState).1.isConverting = initialCtrlState.isConverting ∧
      (jobStep (Job.encoding 5 0 20 ⟨none, none, false⟩ 1 3860000)
        (.encodeDone (.ok 100)) initialCtrlState).1.autoPass = initialCtrlState.autoPass ∧
      (jobStep (Job.encoding 5 0 20 ⟨none, none, false⟩ 1 3860000)
        (.encodeDone (.ok 100)) initialCtrlState).1.jobIdRef = initialCtrlState.jobIdRef ∧
      (jobStep (Job.encoding 5 0 20 ⟨none, none, false⟩ 1 3860000)
        (.encodeDone (.ok 100)) initialCtrlState).1.file = initialCtrlState.file) :=
  ⟨by decide, stale_job_no_mutation _ _ _ (by decide)⟩

/-! ## Claim C7 -/

/-- Claim C7: starting a new job — selecting a file, which runs
`handleFileChange`, and then converting, which runs `handleConvert`'s
prologue — increments the monotonically increasing job-id counter by one
and captures the new counter value as the started job's identity, so any
prior job (whose captured id is at most the old counter value) no longer
matches the counter and is superseded. -/
theorem start_job_supersedes : ∀ (c : CtrlState) (f : ℕ) (jPrior : Job),
    Job.jobId jPrior ≤ c.jobIdRef →
    (handleFileChange (some f) c).jobIdRef = c.jobIdRef + 1 ∧
    Job.jobId jPrior ≠ (handleFileChange (some f) c).jobIdRef ∧
    ∀ (st en : String) (c2 : CtrlState) (j : Job),
      handleConvertStart st en (handleFileChange (some f) c) = (c2, some j) →
      Job.jobId j = c.jobIdRef + 1 := by
  intro c f jPrior hle
  rw [handleFileChange_eq]
  refine ⟨rfl, ?_, ?_⟩
  · dsimp only
    omega
  · intro st en c2 j heq
    rcases hv : validateTrim st en with msg | ⟨s, e⟩
    · simp [handleConvertStart, hv] at heq
    · simp [handleConvertStart, hv] at heq
      obtain ⟨h1, h2⟩ := heq
      subst h2
      rfl

/-- Claim C7, witness: on a fresh controller, selecting a file takes the
counter from 0 to 1, a prior job with id 0 is superseded, and the job
started by a subsequent conversion captures id 1. -/
theorem start_job_supersedes_check :
    Job.jobId (Job.analyzing 0 0 20) ≤ initialCtrlState.jobIdRef ∧
    ((handleFileChange (some 0) initialCtrlState).jobIdRef = initialCtrlState.jobIdRef + 1 ∧
      Job.jobId (Job.analyzing 0 0 20) ≠ (handleFileChange (some 0) initialCtrlState).jobIdRef ∧
      ∀ (st en : String) (c2 : CtrlState) (j : Job),
        handleConvertStart st en (handleFileChange (some 0) initialCtrlState) = (c2, some j) →
        Job.jobId j = initialCtrlState.jobIdRef + 1) :=
  ⟨by decide, start_job_supersedes initialCtrlState 0 (Job.analyzing 0 0 20) (by decide)⟩

/-! ## The convergence loop -/

theorem validate_demo : validateTrim "0:00" "0:20" = ConvertValidation.ok 0 20 := by
  norm_num [validateTrim, parse_0_00, parse_0_20]

theorem runLoopCount_none (sizes : ℕ → ℕ) (n : ℕ) (c : CtrlState) :
    runLoopCount sizes n ((c, none) : CtrlState × Option Job) = ((c, none), 0) := by
  cases n <;> rfl

theorem stepEncode_over_next (jobId : ℕ) (ts te : ℚ) (plan : EncodePlan) (attempt : ℕ)
    (b : ℤ) (sz : ℕ) (c : CtrlState) (hsz : AUTO_TARGET_BYTES < sz) (hid : jobId = c.jobIdRef)
    (ha : attempt + 1 ≤ AUTO_MAX_ATTEMPTS) :
    stepEncode jobId ts te plan attempt b (.ok sz) c =
      ({ c with autoPass := some (attempt + 1) },
        some (.encoding jobId ts te plan (attempt + 1) (correctBitrate b sz))) := by
  subst hid
  simp [stepEncode, not_le.mpr hsz, ha]

theorem stepEncode_exhausted (jobId : ℕ) (ts te : ℚ) (plan : EncodePlan) (attempt : ℕ)
    (b : ℤ) (sz : ℕ) (c : CtrlState) (hsz : AUTO_TARGET_BYTES < sz) (hid : jobId = c.jobIdRef)
    (ha : ¬ (attempt + 1 ≤ AUTO_MAX_ATTEMPTS)) :
    stepEncode jobId ts te plan attempt b (.ok sz) c = (convergenceFailed c, none) := by
  subst hid
  simp [stepEncode, not_le.mpr hsz, ha, jobCatch, convergenceFailed]

theorem startRun_eq (a : RawAnalysis) :
    startRun a = (encodingState,
      some (.encoding 1 0 20 (planFor a) 1 (initialVideoBitrateBps a.hasAudio 20))) := by
  obtain ⟨w, h, rate, audio⟩ := a
  have hcr : convertReady = ⟨1, some 0, false, none, INITIAL_OUTPUT_STATE, none, 0, [], []⟩ := rfl
  have hb : ¬ (videoBytesBudget audio 20 ≤ 0) := by
    cases audio
    · rw [videoBytesBudget_false20]; norm_num
    · rw [videoBytesBudget_true20]; norm_num
  simp [startRun, hcr, handleConvertStart, validate_demo, resetOutput, INITIAL_OUTPUT_STATE,
    jobStep, stepAnalysis, hb, planFor, encodingState]

theorem runLoop_over (sizes : ℕ → ℕ) (hs : ∀ k, AUTO_TARGET_BYTES < sizes k) :
    ∀ (n k : ℕ) (c : CtrlState) (jobId : ℕ) (ts te : ℚ) (plan : EncodePlan) (b : ℤ)
      (attempt : ℕ),
    jobId = c.jobIdRef → attempt + k = 6 → 1 ≤ k → k ≤ n →
    runLoopCount sizes n (c, some (.encoding jobId ts te plan attempt b)) =
      ((convergenceFailed c, none), k) := by
  intro n
  induction n with
  | zero =>
    intro k c jobId ts te plan b attempt hid hsum hk hkn
    omega
  | succ n ih =>
    intro k c jobId ts te plan b attempt hid hsum hk hkn
    subst hid
    simp only [runLoopCount, jobStep]
    by_cases hk1 : k = 1
    · subst hk1
      have ha : attempt = 5 := by omega
      subst ha
      rw [stepEncode_exhausted _ _ _ _ _ _ _ _ (hs 5) rfl (by show ¬ (5 + 1 ≤ 5); omega)]
      rw [runLoopCount_none]
    · have ha : attempt + 1 ≤ AUTO_MAX_ATTEMPTS := by
        show attempt + 1 ≤ 5
        omega
      rw [stepEncode_over_next _ _ _ _ _ _ _ _ (hs attempt) rfl ha]
      rw [ih (k - 1) _ _ _ _ _ _ _ rfl (by omega) (by omega) (by omega)]
      have hkk : k - 1 + 1 = k := by omega
      rw [hkk]
      rfl

/-! ## Claim C1 -/

/-- Claim C1: when every encode attempt of a job comes back strictly over
the 9,800,000-byte target, the convergence loop performs exactly 5
encode attempts and the job then terminates in the error state carrying
the convergence message, with no pending continuation — so no sixth
attempt can ever run, no matter how much further the run is driven. -/
theorem convergence_exactly_five : ∀ (sizes : ℕ → ℕ) (a : RawAnalysis) (fuel : ℕ),
    (∀ k, AUTO_TARGET_BYTES < sizes k) → 5 ≤ fuel →
    runLoopCount sizes fuel (startRun a) = ((convergenceFailed encodingState, none), 5) ∧
    (convergenceFailed encodingState).output.status = OutStatus.error ∧
    (convergenceFailed encodingState).output.errorMsg =
      some "Auto mode could not hit the target size. Try trimming more." := by
  intro sizes a fuel hs hf
  refine ⟨?_, rfl, rfl⟩
  rw [startRun_eq]
  exact runLoop_over sizes hs fuel 5 encodingState 1 0 20 (planFor a)
    (initialVideoBitrateBps a.hasAudio 20) 1 rfl (by norm_num) (by norm_num) hf

/-- Claim C1, witness: an engine stub that always reports 14,700,000
bytes (1.5 times the target) on a 4K source with audio: driving the run
with 7 events consumes exactly 5 encode attempts and ends in the
convergence error with no pending job. -/
theorem convergence_exactly_five_check :
    (∀ k : ℕ, AUTO_TARGET_BYTES < (fun _ : ℕ => 14700000) k) ∧ (5 : ℕ) ≤ 7 ∧
    runLoopCount (fun _ => 14700000) 7 (startRun ⟨3840, 2160, 30, true⟩) =
      ((convergenceFailed encodingState, none), 5) :=
  ⟨fun _ => by norm_num [AUTO_TARGET_BYTES], by norm_num,
    (convergence_exactly_five (fun _ => 14700000) ⟨3840, 2160, 30, true⟩ 7
      (fun _ => by norm_num [AUTO_TARGET_BYTES]) (by norm_num)).1⟩

/-! ## Sequential successful jobs -/

theorem runSuccessfulJob_spec (c : CtrlState) :
    runSuccessfulJob c =
      { jobIdRef := c.jobIdRef + 1, file := some 0, isConverting := false, autoPass := none,
        output := ⟨.done, some c.nextUrl, some 5000000, none⟩, outputUrlRef := some c.nextUrl,
        nextUrl := c.nextUrl + 1,
        alive := c.nextUrl ::
          (match c.outputUrlRef with
            | some u => c.alive.erase u
            | none => c.alive),
        revoked := match c.outputUrlRef with
          | some u => u :: c.revoked
          | none => c.revoked } := by
  have hb : ¬ (videoBytesBudget false 20 ≤ 0) := by
    rw [videoBytesBudget_false20]
    norm_num
  have hsz : (5000000 : ℕ) ≤ AUTO_TARGET_BYTES := by norm_num [AUTO_TARGET_BYTES]
  rw [runSuccessfulJob.eq_def, handleFileChange_eq]
  simp [handleConvertStart, validate_demo, resetOutput, INITIAL_OUTPUT_STATE,
    jobStep, stepAnalysis, stepEncode, hb, hsz]

theorem stateAfterJobs_succ (n : ℕ) : stateAfterJobs (n + 1) = seqState n := by
  induction n with
  | zero =>
    rw [show stateAfterJobs 1 = runSuccessfulJob initialCtrlState from rfl, runSuccessfulJob_spec]
    simp [seqState, initialCtrlState]
  | succ n ih =>
    rw [show stateAfterJobs (n + 2) = runSuccessfulJob (stateAfterJobs (n + 1)) from rfl,
      ih, runSuccessfulJob_spec]
    simp [seqState, List.range_succ]

/-! ## Claim C6 -/

/-- Claim C6: at most one output handle is live per controller instance:
`resetOutput` (run when a conversion starts) releases the held handle
before clearing the ref, and — a success commit having stored its
handle in the just-cleared slot — after `N ≥ 1` successful jobs in
sequence exactly one object URL is alive (the last job's) and the `N−1`
prior handles have each been revoked. -/
theorem single_live_handle :
    (∀ (c : CtrlState) (u : ℕ), c.outputUrlRef = some u →
      (resetOutput c).outputUrlRef = none ∧
      (resetOutput c).alive = c.alive.erase u ∧
      (resetOutput c).revoked = u :: c.revoked) ∧
    ∀ N : ℕ, 1 ≤ N →
      (stateAfterJobs N).alive = [N - 1] ∧
      (stateAfterJobs N).revoked = (List.range (N - 1)).reverse ∧
      (stateAfterJobs N).alive.length = 1 ∧
      (stateAfterJobs N).revoked.length = N - 1 := by
  constructor
  · intro c u hu
    simp [resetOutput, revokeObjectURL, hu]
  · intro N hN
    obtain ⟨n, rfl⟩ : ∃ n, N = n + 1 := ⟨N - 1, by omega⟩
    rw [stateAfterJobs_succ]
    simp [seqState]

/-- Claim C6, witness: after three successful jobs exactly the third
job's handle is alive and the two prior handles are revoked; and
`resetOutput` on the state after one job revokes that job's handle. -/
theorem single_live_handle_check :
    (seqState 0).outputUrlRef = some 0 ∧
    ((resetOutput (seqState 0)).outputUrlRef = none ∧
      (resetOutput (seqState 0)).alive = (seqState 0).alive.erase 0 ∧
      (resetOutput (seqState 0)).revoked = 0 :: (seqState 0).revoked) ∧
    (1 : ℕ) ≤ 3 ∧
    ((stateAfterJobs 3).alive = [3 - 1] ∧
      (stateAfterJobs 3).revoked = (List.range (3 - 1)).reverse ∧
      (stateAfterJobs 3).alive.length = 1 ∧
      (stateAfterJobs 3).revoked.length = 3 - 1) :=
  ⟨rfl, single_live_handle.1 (seqState 0) 0 rfl, by norm_num, single_live_handle.2 3 (by norm_num)⟩

end Clipcat
